import Mathlib

/-!
# vmclarity: blob reconciliation and the external provider's asset conversion

A shallow embedding of

* `provider/v2/azure/scanner/blob.go`: `blobNameFromJobConfig`,
  `Scanner.blobURLFromBlobName`, `Scanner.ensureBlobFromSnapshot` and
  `Scanner.ensureBlobDeleted`;
* the asset conversion exercised by
  `pkg/orchestrator/provider/external/helpers_test.go`.

The Azure SDK and `utils.HandleAzureRequestError` are the environment of the two
`ensure` functions.  They are collected in one record, `Env`, over an arbitrary
type of remote states: a mutating SDK call answers and yields the next remote
state, a read only answers.  Every function returns, besides its Go results,
the remote state it leaves behind and the sequence of remote calls it issued.
A nil pointer dereference is the result `Result.panic`.
-/

namespace VMClarity

/-! ## Go values -/

/-- Go `time.Duration`: a number of nanoseconds. -/
abbrev Duration := Int

/-- Go `time.Minute`. -/
def Minute : Duration := 60 * 1000000000

/-- Go `int32(n)` conversion: wraps into the signed 32 bit range. -/
def int32 (n : Int) : Int := (n + 2 ^ 31) % 2 ^ 32 - 2 ^ 31

/-- The error values the reconciliation functions hand back: the two kinds built by
`provider.FatalErrorf` and `provider.RetryableErrorf`, and any other Go error. -/
inductive Error where
  | Fatal (msg : String)
  | Retryable (after : Duration) (msg : String)
  | Plain (msg : String)
  deriving DecidableEq, Repr

/-- The Go function `provider.FatalErrorf`, with the message already formatted. -/
def FatalErrorf (msg : String) : Error := Error.Fatal msg

/-- The Go function `provider.RetryableErrorf`, with the message already formatted. -/
def RetryableErrorf (after : Duration) (msg : String) : Error := Error.Retryable after msg

/-- What a Go function body comes to: it returns, or it panics on a nil dereference. -/
inductive Result (α : Type) where
  | panic
  | ret (a : α)
  deriving DecidableEq, Repr

/-! ## The Azure SDK, as seen from blob.go -/

/-- An error returned by an SDK call; `StatusCode` is the HTTP status of an
`azcore.ResponseError` and is absent for any other error. -/
structure AzureError where
  StatusCode : Option Nat
  Message : String
  deriving DecidableEq, Repr

/-- The SDK type `blob.CopyStatusType`, a string type. -/
abbrev CopyStatusType := String

def CopyStatusTypePending : CopyStatusType := "pending"
def CopyStatusTypeSuccess : CopyStatusType := "success"
def CopyStatusTypeAborted : CopyStatusType := "aborted"
def CopyStatusTypeFailed : CopyStatusType := "failed"

/-- The SDK constant `armcompute.AccessLevelRead`. -/
def AccessLevelRead : String := "Read"

/-- The fields of `blob.GetPropertiesResponse` that blob.go reads; both are pointers. -/
structure GetPropertiesResponse where
  CopyStatus : Option CopyStatusType
  CopyID : Option String
  deriving DecidableEq, Repr

/-- The SDK type `armcompute.GrantAccessData`; both fields are set through `to.Ptr`. -/
structure GrantAccessData where
  Access : String
  DurationInSeconds : Int
  deriving DecidableEq, Repr

/-- The result of polling a grant-access operation: `AccessURI.AccessSAS`, a pointer. -/
structure GrantAccessResponse where
  AccessSAS : Option String
  deriving DecidableEq, Repr

/-- A long running operation handle returned by a `Begin...` call. -/
structure Poller where
  operation : String
  deriving DecidableEq, Repr

/-- The SDK type `armcompute.Snapshot`, of which blob.go reads the pointer `Name`. -/
structure Snapshot where
  Name : Option String
  deriving DecidableEq, Repr

/-- One remote call, with its arguments. -/
inductive Call where
  | GetProperties (blobURL : String)
  | BeginRevokeAccess (resourceGroup snapshotName : String)
  | BeginGrantAccess (resourceGroup snapshotName : String) (data : GrantAccessData)
  | PollUntilDone (p : Poller)
  | StartCopyFromURL (blobURL accessURL : String)
  | AbortCopyFromURL (blobURL copyID : String)
  | Delete (blobURL : String)
  deriving DecidableEq, Repr

/-- The calls that change remote state: grant-access, revoke-access, start-copy,
abort-copy and delete.  `GetProperties` and polling an operation are reads. -/
def Call.mutating : Call → Bool
  | Call.GetProperties _ => false
  | Call.BeginRevokeAccess _ _ => true
  | Call.BeginGrantAccess _ _ _ => true
  | Call.PollUntilDone _ => false
  | Call.StartCopyFromURL _ _ => true
  | Call.AbortCopyFromURL _ _ => true
  | Call.Delete _ => true

/-- The environment of blob.go over remote states `σ`: the SDK entry points it calls
and `utils.HandleAzureRequestError`, whose source is not part of the development and
which is therefore a parameter.  `HandleAzureRequestError err action` receives the
formatted action text and returns the `notFound` flag and the Go error. -/
structure Env (σ : Type) where
  HandleAzureRequestError : AzureError → String → Bool × Option Error
  NewClient : String → Option String
  GetProperties : σ → String → Except AzureError GetPropertiesResponse
  BeginRevokeAccess : σ → String → String → Except AzureError Poller × σ
  RevokePollUntilDone : σ → Poller → Except AzureError Unit
  BeginGrantAccess : σ → String → String → GrantAccessData → Except AzureError Poller × σ
  GrantPollUntilDone : σ → Poller → Except AzureError GrantAccessResponse
  StartCopyFromURL : σ → String → String → Except AzureError Unit × σ
  AbortCopyFromURL : σ → String → String → Except AzureError Unit × σ
  Delete : σ → String → Except AzureError Unit × σ

/-- What one invocation leaves behind: its Go result, the remote state, and the remote
calls it issued, in order. -/
structure Outcome (σ α : Type) where
  result : Result α
  remote : σ
  calls : List Call

/-- The mutating calls among the calls of an invocation. -/
def mutatingCalls (calls : List Call) : List Call := calls.filter Call.mutating

/-! ## Scan job configuration and scanner -/

/-- The Go struct `provider.ScanMetadata`. -/
structure ScanMetadata where
  ScanID : String
  AssetScanID : String
  AssetID : String
  deriving DecidableEq, Repr

/-- The fields of `provider.ScanJobConfig` that do not involve the asset; `AssetScanID`
is promoted from the embedded `ScanMetadata`. -/
structure ScanJobConfig where
  ScannerImage : String
  ScannerCLIConfig : String
  VMClarityAddress : String
  ScanMetadata : ScanMetadata
  deriving DecidableEq, Repr

def ScanJobConfig.AssetScanID (config : ScanJobConfig) : String :=
  config.ScanMetadata.AssetScanID

/-- The fields of the Azure `Scanner` that blob.go reads. -/
structure Scanner where
  ScannerStorageAccountName : String
  ScannerStorageContainerName : String
  ScannerResourceGroup : String
  deriving DecidableEq, Repr

/-! ## blob.go -/

def estimatedBlobCopyTime : Duration := 2 * Minute
def estimatedBlobAbortTime : Duration := 2 * Minute
def estimatedBlobDeleteTime : Duration := 2 * Minute
def snapshotSASAccessSeconds : Int := 3600

/-- The Go function `blobNameFromJobConfig`; `config` is a pointer and is dereferenced. -/
def blobNameFromJobConfig (config : Option ScanJobConfig) : Result String :=
  match config with
  | none => Result.panic
  | some c => Result.ret (c.AssetScanID ++ ".vhd")

/-- The Go method `Scanner.blobURLFromBlobName`. -/
def Scanner.blobURLFromBlobName (s : Scanner) (blobName : String) : String :=
  "https://" ++ s.ScannerStorageAccountName ++ ".blob.core.windows.net/"
    ++ s.ScannerStorageContainerName ++ "/" ++ blobName

/-- The Go method `Scanner.ensureBlobFromSnapshot`, started in remote state `st`. -/
def Scanner.ensureBlobFromSnapshot {σ : Type} (env : Env σ) (s : Scanner)
    (config : Option ScanJobConfig) (snapshot : Snapshot) (st : σ) :
    Outcome σ (String × Option Error) :=
  match blobNameFromJobConfig config with
  | Result.panic => ⟨Result.panic, st, []⟩
  | Result.ret blobName =>
    let blobURL := s.blobURLFromBlobName blobName
    match env.NewClient blobURL with
    | some err =>
      ⟨Result.ret (blobURL, some (FatalErrorf ("failed to init blob client: " ++ err))), st, []⟩
    | none =>
      match env.GetProperties st blobURL with
      | Except.ok getMetadata =>
        match getMetadata.CopyStatus with
        | none => ⟨Result.panic, st, [Call.GetProperties blobURL]⟩
        | some copyStatus =>
          if copyStatus ≠ CopyStatusTypeSuccess then
            ⟨Result.ret (blobURL,
                some (RetryableErrorf estimatedBlobCopyTime "blob is still copying")),
              st, [Call.GetProperties blobURL]⟩
          else
            match snapshot.Name with
            | none => ⟨Result.panic, st, [Call.GetProperties blobURL]⟩
            | some name =>
              match env.BeginRevokeAccess st s.ScannerResourceGroup name with
              | (Except.error err, st1) =>
                ⟨Result.ret (blobURL, (env.HandleAzureRequestError err
                    ("revoking SAS access for snapshot " ++ name)).2),
                  st1, [Call.GetProperties blobURL,
                    Call.BeginRevokeAccess s.ScannerResourceGroup name]⟩
              | (Except.ok revokepoller, st1) =>
                match env.RevokePollUntilDone st1 revokepoller with
                | Except.error err =>
                  ⟨Result.ret (blobURL, (env.HandleAzureRequestError err
                      ("waiting for SAS access to be revoked for snapshot " ++ name)).2),
                    st1, [Call.GetProperties blobURL,
                      Call.BeginRevokeAccess s.ScannerResourceGroup name,
                      Call.PollUntilDone revokepoller]⟩
                | Except.ok _ =>
                  ⟨Result.ret (blobURL, none), st1, [Call.GetProperties blobURL,
                    Call.BeginRevokeAccess s.ScannerResourceGroup name,
                    Call.PollUntilDone revokepoller]⟩
      | Except.error err0 =>
        match env.HandleAzureRequestError err0 ("getting blob " ++ blobName) with
        | (false, err) => ⟨Result.ret (blobURL, err), st, [Call.GetProperties blobURL]⟩
        | (true, _) =>
          match snapshot.Name with
          | none => ⟨Result.panic, st, [Call.GetProperties blobURL]⟩
          | some name =>
            let data : GrantAccessData :=
              ⟨AccessLevelRead, int32 snapshotSASAccessSeconds⟩
            match env.BeginGrantAccess st s.ScannerResourceGroup name data with
            | (Except.error err, st1) =>
              ⟨Result.ret (blobURL, (env.HandleAzureRequestError err
                  ("granting SAS access to snapshot " ++ name)).2),
                st1, [Call.GetProperties blobURL,
                  Call.BeginGrantAccess s.ScannerResourceGroup name data]⟩
            | (Except.ok poller, st1) =>
              match env.GrantPollUntilDone st1 poller with
              | Except.error err =>
                ⟨Result.ret (blobURL, (env.HandleAzureRequestError err
                    ("waiting for SAS access to snapshot " ++ name ++ " be granted")).2),
                  st1, [Call.GetProperties blobURL,
                    Call.BeginGrantAccess s.ScannerResourceGroup name data,
                    Call.PollUntilDone poller]⟩
              | Except.ok res =>
                match res.AccessSAS with
                | none =>
                  ⟨Result.panic, st1, [Call.GetProperties blobURL,
                    Call.BeginGrantAccess s.ScannerResourceGroup name data,
                    Call.PollUntilDone poller]⟩
                | some accessURL =>
                  match env.StartCopyFromURL st1 blobURL accessURL with
                  | (Except.error err, st2) =>
                    ⟨Result.ret (blobURL, (env.HandleAzureRequestError err
                        ("starting copy from URL operation for blob " ++ blobName)).2),
                      st2, [Call.GetProperties blobURL,
                        Call.BeginGrantAccess s.ScannerResourceGroup name data,
                        Call.PollUntilDone poller,
                        Call.StartCopyFromURL blobURL accessURL]⟩
                  | (Except.ok _, st2) =>
                    ⟨Result.ret (blobURL,
                        some (RetryableErrorf estimatedBlobCopyTime "blob copy from url started")),
                      st2, [Call.GetProperties blobURL,
                        Call.BeginGrantAccess s.ScannerResourceGroup name data,
                        Call.PollUntilDone poller,
                        Call.StartCopyFromURL blobURL accessURL]⟩

/-- The Go method `Scanner.ensureBlobDeleted`, started in remote state `st`. -/
def Scanner.ensureBlobDeleted {σ : Type} (env : Env σ) (s : Scanner)
    (config : Option ScanJobConfig) (st : σ) : Outcome σ (Option Error) :=
  match blobNameFromJobConfig config with
  | Result.panic => ⟨Result.panic, st, []⟩
  | Result.ret blobName =>
    let blobURL := s.blobURLFromBlobName blobName
    match env.NewClient blobURL with
    | some err =>
      ⟨Result.ret (some (FatalErrorf ("failed to init blob client: " ++ err))), st, []⟩
    | none =>
      match env.GetProperties st blobURL with
      | Except.error err0 =>
        match env.HandleAzureRequestError err0 ("getting blob " ++ blobName) with
        | (true, _) => ⟨Result.ret none, st, [Call.GetProperties blobURL]⟩
        | (false, err) => ⟨Result.ret err, st, [Call.GetProperties blobURL]⟩
      | Except.ok getMetadata =>
        match getMetadata.CopyStatus with
        | none => ⟨Result.panic, st, [Call.GetProperties blobURL]⟩
        | some copyStatus =>
          if copyStatus = CopyStatusTypePending then
            match getMetadata.CopyID with
            | none => ⟨Result.panic, st, [Call.GetProperties blobURL]⟩
            | some copyID =>
              match env.AbortCopyFromURL st blobURL copyID with
              | (Except.error err, st1) =>
                ⟨Result.ret (env.HandleAzureRequestError err
                    ("aborting copy from url for blob " ++ blobName)).2,
                  st1, [Call.GetProperties blobURL, Call.AbortCopyFromURL blobURL copyID]⟩
              | (Except.ok _, st1) =>
                ⟨Result.ret (some (RetryableErrorf estimatedBlobAbortTime "blob copy aborting")),
                  st1, [Call.GetProperties blobURL, Call.AbortCopyFromURL blobURL copyID]⟩
          else
            match env.Delete st blobURL with
            | (Except.error err, st1) =>
              ⟨Result.ret (env.HandleAzureRequestError err
                  ("deleting blob " ++ blobName)).2,
                st1, [Call.GetProperties blobURL, Call.Delete blobURL]⟩
            | (Except.ok _, st1) =>
              ⟨Result.ret (some (RetryableErrorf estimatedBlobDeleteTime
                  ("blob " ++ blobName ++ " delete started"))),
                st1, [Call.GetProperties blobURL, Call.Delete blobURL]⟩

/-! ## A reference backend

An in-memory stand-in for the storage account and the snapshot service.  A blob is
absent or carries a copy status and a copy id; starting a copy creates the blob with
copy status pending, aborting a pending copy marks it aborted, and delete removes the
blob.  Reads of an absent blob answer with the HTTP status 404. -/

/-- A blob of the reference backend. -/
structure FakeBlob where
  CopyStatus : Option CopyStatusType
  CopyID : Option String
  deriving DecidableEq, Repr

/-- The remote state of the reference backend: the blobs by URL and the snapshots, by
resource group and name, that have an active access grant. -/
structure FakeRemote where
  blobs : String → Option FakeBlob
  granted : List (String × String)

/-- The answer of the reference backend for a blob that does not exist. -/
def fakeNotFound : AzureError := ⟨some 404, "BlobNotFound"⟩

/-- The answer of the reference backend for an abort that matches no pending copy. -/
def fakeConflict : AzureError := ⟨some 409, "NoPendingCopyOperation"⟩

/-- The reference backend without any blob and without any grant. -/
def FakeRemote.empty : FakeRemote := ⟨fun _ => none, []⟩

/-- The reference backend after the blob at `blobURL` is set to `b`. -/
def FakeRemote.setBlob (st : FakeRemote) (blobURL : String) (b : Option FakeBlob) :
    FakeRemote :=
  ⟨fun u => if u = blobURL then b else st.blobs u, st.granted⟩

/-- The reference backend as an environment, for a given `HandleAzureRequestError`. -/
def fakeEnv (handle : AzureError → String → Bool × Option Error) : Env FakeRemote where
  HandleAzureRequestError := handle
  NewClient := fun _ => none
  GetProperties := fun st blobURL =>
    match st.blobs blobURL with
    | none => Except.error fakeNotFound
    | some b => Except.ok ⟨b.CopyStatus, b.CopyID⟩
  BeginRevokeAccess := fun st resourceGroup name =>
    (Except.ok ⟨"revoke:" ++ name⟩,
      ⟨st.blobs, st.granted.filter (fun g => g ≠ (resourceGroup, name))⟩)
  RevokePollUntilDone := fun _ _ => Except.ok ()
  BeginGrantAccess := fun st resourceGroup name _ =>
    (Except.ok ⟨"grant:" ++ name⟩, ⟨st.blobs, (resourceGroup, name) :: st.granted⟩)
  GrantPollUntilDone := fun _ p => Except.ok ⟨some ("https://sas.invalid/" ++ p.operation)⟩
  StartCopyFromURL := fun st blobURL accessURL =>
    (Except.ok (),
      st.setBlob blobURL (some ⟨some CopyStatusTypePending, some ("copy:" ++ accessURL)⟩))
  AbortCopyFromURL := fun st blobURL copyID =>
    match st.blobs blobURL with
    | none => (Except.error fakeNotFound, st)
    | some b =>
      if b.CopyStatus = some CopyStatusTypePending ∧ b.CopyID = some copyID then
        (Except.ok (), st.setBlob blobURL (some ⟨some CopyStatusTypeAborted, b.CopyID⟩))
      else (Except.error fakeConflict, st)
  Delete := fun st blobURL =>
    match st.blobs blobURL with
    | none => (Except.error fakeNotFound, st)
    | some _ => (Except.ok (), st.setBlob blobURL none)

/-- The reference backend in which a blob that reads still see has finished deleting
by the time the delete call arrives: delete answers 404 and leaves no blob. -/
def deleteRaceEnv (handle : AzureError → String → Bool × Option Error) : Env FakeRemote :=
  { fakeEnv handle with
    Delete := fun st blobURL => (Except.error fakeNotFound, st.setBlob blobURL none) }

/-- Modelled from the spec: `utils.HandleAzureRequestError` is not under src/.  A remote
error is mapped into the error taxonomy before it leaves a reconciliation function
(§7), an error that matches no recoverable signature is Fatal (§4.2, step 6), and
"not found" is reported through the flag; the flag is raised for the HTTP status 404
and no recoverable signature is modelled.  Used where a concrete handler is needed. -/
def HandleAzureRequestError (err : AzureError) (action : String) : Bool × Option Error :=
  (decide (err.StatusCode = some 404),
    some (FatalErrorf ("error from azure while " ++ action ++ ": " ++ err.Message)))

/-- A scanner, a scan job configuration and a snapshot used in the examples. -/
def exampleScanner : Scanner := ⟨"acct", "scans", "rg"⟩

def exampleConfig : ScanJobConfig :=
  ⟨"image1", "cliconfig", "addr", ⟨"scanid1", "assetscanid1", "assetid1"⟩⟩

def exampleSnapshot : Snapshot := ⟨some "snap1"⟩

def exampleBlobURL : String := "https://acct.blob.core.windows.net/scans/assetscanid1.vhd"

/-! ## The canonical asset and its wire form

The conversion functions of `pkg/orchestrator/provider/external` are exercised by
helpers_test.go; their own source is not part of the development.  The types below are
read off the literals of that test file and §3 of the specification. -/

namespace types

/-- The enum of `InstanceProvider`: the backend that owns a virtual machine. -/
inductive CloudProvider where
  | AWS | Azure | Docker | External | GCP | Kubernetes
  deriving DecidableEq, Repr

/-- A canonical tag as in the test literals: `types.Tag` with `Key` and `Value`. -/
structure Tag where
  Key : String
  Value : String
  deriving DecidableEq, Repr

/-- An element of `VMInfo.SecurityGroups`. -/
structure SecurityGroup where
  Id : String
  deriving DecidableEq, Repr

/-- A launch time: a UTC instant at nanosecond resolution, as seconds since the epoch
and nanoseconds within the second. -/
structure Time where
  sec : Int
  nsec : Fin 1000000000
  deriving DecidableEq, Repr

/-- The canonical `VMInfo`; `InstanceProvider`, `SecurityGroups` and `Tags` are
pointers in the test literals. -/
structure VMInfo where
  Image : String
  InstanceID : String
  InstanceProvider : Option CloudProvider
  InstanceType : String
  LaunchTime : Time
  Location : String
  Platform : String
  SecurityGroups : Option (List SecurityGroup)
  Tags : Option (List Tag)
  deriving DecidableEq, Repr

/-- The canonical `DirInfo`: two optional scalars. -/
structure DirInfo where
  DirName : Option String
  Location : Option String
  deriving DecidableEq, Repr

/-- The canonical `PodInfo`: two optional scalars. -/
structure PodInfo where
  PodName : Option String
  Location : Option String
  deriving DecidableEq, Repr

/-- The union `types.AssetType`: what `FromVMInfo`, `FromDirInfo` and `FromPodInfo`
populate, the zero value with no arm populated, and any further variant of the union
(§2 lists the variants with an ellipsis), named by its discriminator. -/
inductive AssetType where
  | ofVMInfo (info : VMInfo)
  | ofDirInfo (info : DirInfo)
  | ofPodInfo (info : PodInfo)
  | unset
  | other (objectType : String)
  deriving DecidableEq, Repr

/-- The canonical `Asset`; `AssetInfo` is a pointer and `Asset{}` has none. -/
structure Asset where
  AssetInfo : Option AssetType
  deriving DecidableEq, Repr

end types

namespace provider_service

/-- The wire tag as in the test literals: `Key` and `Val`. -/
structure Tag where
  Key : String
  Val : String
  deriving DecidableEq, Repr

/-- The protobuf timestamp: seconds since the epoch and nanoseconds. -/
structure Timestamp where
  Seconds : Int
  Nanos : Int
  deriving DecidableEq, Repr

/-- The wire `VMInfo`, with the fields of the test literals; `Tags` is a Go slice,
which is nil (`none`) or holds a sequence. -/
structure VMInfo where
  Id : String
  Location : String
  Image : String
  InstanceType : String
  Platform : String
  Tags : Option (List Tag)
  LaunchTime : Timestamp
  deriving DecidableEq, Repr

/-- The wire `DirInfo`: two plain strings. -/
structure DirInfo where
  DirName : String
  Location : String
  deriving DecidableEq, Repr

/-- The wire `PodInfo`: two plain strings. -/
structure PodInfo where
  PodName : String
  Location : String
  deriving DecidableEq, Repr

/-- The arm of the wire asset's `AssetType` field: one of the three generated arms, or
an arm the receiver does not recognize, named by its tag. -/
inductive AssetType where
  | Vminfo (v : VMInfo)
  | Dirinfo (d : DirInfo)
  | Podinfo (p : PodInfo)
  | unrecognized (tag : String)
  deriving DecidableEq, Repr

/-- The wire `Asset`; the arm is unset in `Asset{}`. -/
structure Asset where
  AssetType : Option AssetType
  deriving DecidableEq, Repr

end provider_service

/-- The two errors of the asset conversion named in §4.3. -/
inductive ConversionError where
  | InvalidInput (msg : String)
  | UnsupportedAssetType (msg : String)
  deriving DecidableEq, Repr

/-- The library function `timestamppb.New` on a UTC instant. -/
def timestamppbNew (t : types.Time) : provider_service.Timestamp :=
  ⟨t.sec, (t.nsec.val : Int)⟩

/-- The library method `Timestamp.AsTime`: `time.Unix(Seconds, Nanos).UTC()`, which
carries whole seconds of `Nanos` over into the seconds. -/
def AsTime (ts : provider_service.Timestamp) : types.Time :=
  ⟨ts.Seconds + ts.Nanos / 1000000000,
    ⟨(ts.Nanos % 1000000000).toNat % 1000000000, Nat.mod_lt _ (by decide)⟩⟩

/-- Modelled from the spec: `convertTagsToModels` is not under src/.  §4.3, tag-sequence
conversion: an empty or absent input sequence converts to an absent output, a populated
one keeps its order and every key/value pair; the cases of `Test_convertTagsToModels`. -/
def convertTagsToModels (tags : Option (List provider_service.Tag)) :
    Option (List types.Tag) :=
  match tags with
  | none => none
  | some [] => none
  | some (t :: ts) => some ((t :: ts).map (fun tag => ⟨tag.Key, tag.Val⟩))

/-- Modelled from the spec: `convertTagsFromModels` is not under src/.  §4.3, tag-sequence
conversion, in the direction of the wire: empty or absent converts to absent, a populated
sequence keeps its order and every key/value pair. -/
def convertTagsFromModels (tags : Option (List types.Tag)) :
    Option (List provider_service.Tag) :=
  match tags with
  | none => none
  | some [] => none
  | some (t :: ts) => some ((t :: ts).map (fun tag => ⟨tag.Key, tag.Value⟩))

/-- Modelled from the spec: `convertAssetToModels` is not under src/.  §4.3: a nil
input fails with `InvalidInput`, an unset or unrecognized arm fails with
`UnsupportedAssetType`, both with the empty `Asset`; otherwise the populated arm is
converted.  As in the cases of `Test_convertAssetToModels`, a virtual machine received
over the wire gets `InstanceProvider` `External` and an empty, non-nil
`SecurityGroups`, and the strings of a directory or pod become present scalars. -/
def convertAssetToModels (asset : Option provider_service.Asset) :
    types.Asset × Option ConversionError :=
  match asset with
  | none => (⟨none⟩, some (ConversionError.InvalidInput "asset is nil"))
  | some a =>
    match a.AssetType with
    | some (provider_service.AssetType.Vminfo vminfo) =>
      (⟨some (types.AssetType.ofVMInfo
        { Image := vminfo.Image
          InstanceID := vminfo.Id
          InstanceProvider := some types.CloudProvider.External
          InstanceType := vminfo.InstanceType
          LaunchTime := AsTime vminfo.LaunchTime
          Location := vminfo.Location
          Platform := vminfo.Platform
          SecurityGroups := some []
          Tags := convertTagsToModels vminfo.Tags })⟩, none)
    | some (provider_service.AssetType.Dirinfo dirinfo) =>
      (⟨some (types.AssetType.ofDirInfo
        ⟨some dirinfo.DirName, some dirinfo.Location⟩)⟩, none)
    | some (provider_service.AssetType.Podinfo podinfo) =>
      (⟨some (types.AssetType.ofPodInfo
        ⟨some podinfo.PodName, some podinfo.Location⟩)⟩, none)
    | some (provider_service.AssetType.unrecognized _) =>
      (⟨none⟩, some (ConversionError.UnsupportedAssetType "unsupported asset type"))
    | none =>
      (⟨none⟩, some (ConversionError.UnsupportedAssetType "unsupported asset type"))

/-- Modelled from the spec: `convertAssetFromModels` is not under src/.  §4.3: an asset
with no arm populated, or with a variant the wire form does not have, fails with
`UnsupportedAssetType`; otherwise the populated arm is converted, an absent optional
scalar to the empty string (the wire format's explicit empty sentinel).  As in the
cases of `Test_convertAssetFromModels`, the wire `VMInfo` carries neither
`InstanceProvider` nor `SecurityGroups`. -/
def convertAssetFromModels (asset : types.Asset) :
    Option provider_service.Asset × Option ConversionError :=
  match asset.AssetInfo with
  | some (types.AssetType.ofVMInfo info) =>
    (some ⟨some (provider_service.AssetType.Vminfo
      { Id := info.InstanceID
        Location := info.Location
        Image := info.Image
        InstanceType := info.InstanceType
        Platform := info.Platform
        Tags := convertTagsFromModels info.Tags
        LaunchTime := timestamppbNew info.LaunchTime })⟩, none)
  | some (types.AssetType.ofDirInfo info) =>
    (some ⟨some (provider_service.AssetType.Dirinfo
      ⟨info.DirName.getD "", info.Location.getD ""⟩)⟩, none)
  | some (types.AssetType.ofPodInfo info) =>
    (some ⟨some (provider_service.AssetType.Podinfo
      ⟨info.PodName.getD "", info.Location.getD ""⟩)⟩, none)
  | some types.AssetType.unset =>
    (none, some (ConversionError.UnsupportedAssetType "unsupported asset type"))
  | some (types.AssetType.other _) =>
    (none, some (ConversionError.UnsupportedAssetType "unsupported asset type"))
  | none =>
    (none, some (ConversionError.UnsupportedAssetType "unsupported asset type"))

/-- The canonical assets of helpers_test.go, at the instant `t`. -/
def testVMInfo (t : types.Time) : types.VMInfo :=
  { Image := "image1"
    InstanceID := "id1"
    InstanceProvider := some types.CloudProvider.External
    InstanceType := "type1"
    LaunchTime := t
    Location := "location1"
    Platform := "linux"
    SecurityGroups := some []
    Tags := some [⟨"key1", "val1"⟩] }

def testDirInfo : types.DirInfo := ⟨some "dir1", some "dirLocation1"⟩

def testPodInfo : types.PodInfo := ⟨some "pod1", some "podLocation1"⟩

/-- The instant used in the examples. -/
def testTime : types.Time := ⟨1700000000, ⟨123456789, by decide⟩⟩

/-- A virtual machine whose tag sequence is present and empty. -/
def emptyTagsVM : types.Asset :=
  ⟨some (types.AssetType.ofVMInfo { testVMInfo testTime with Tags := some [] })⟩

/-- A virtual machine owned by the AWS backend. -/
def awsVM : types.Asset :=
  ⟨some (types.AssetType.ofVMInfo
    { testVMInfo testTime with InstanceProvider := some types.CloudProvider.AWS })⟩

/-- A virtual machine in one security group. -/
def securityGroupVM : types.Asset :=
  ⟨some (types.AssetType.ofVMInfo
    { testVMInfo testTime with SecurityGroups := some [⟨"sg-1"⟩] })⟩

/-- A directory whose name is absent. -/
def namelessDir : types.Asset :=
  ⟨some (types.AssetType.ofDirInfo ⟨none, some "dirLocation1"⟩)⟩

/-! ## Theorems: blob.go -/

theorem int32_snapshotSASAccessSeconds : int32 snapshotSASAccessSeconds = 3600 := by
  decide

/-- C1. Blob absent: when the client is built, `GetProperties` on the blob named
`AssetScanID ++ ".vhd"` fails with an error that `HandleAzureRequestError` flags as not
found, and grant-access (the call and its poll) and start-copy succeed, then
`ensureBlobFromSnapshot` issues exactly the existence query, a read grant of 3600
seconds on the snapshot, the poll of that grant and the start-copy from the granted
URL, and returns the blob URL with a Retryable error of delay `estimatedBlobCopyTime`.
Over the reference backend the blob exists afterwards with copy status pending. -/
theorem ensureBlobFromSnapshot_blob_absent {σ : Type} (env : Env σ) (s : Scanner)
    (c : ScanJobConfig) (snapshot : Snapshot) (st st1 st2 : σ) (err0 : AzureError)
    (name accessURL : String) (poller : Poller)
    (hclient : env.NewClient (s.blobURLFromBlobName (c.AssetScanID ++ ".vhd")) = none)
    (hget : env.GetProperties st (s.blobURLFromBlobName (c.AssetScanID ++ ".vhd"))
      = Except.error err0)
    (hnotFound : (env.HandleAzureRequestError err0
      ("getting blob " ++ (c.AssetScanID ++ ".vhd"))).1 = true)
    (hname : snapshot.Name = some name)
    (hgrant : env.BeginGrantAccess st s.ScannerResourceGroup name ⟨AccessLevelRead, 3600⟩
      = (Except.ok poller, st1))
    (hpoll : env.GrantPollUntilDone st1 poller = Except.ok ⟨some accessURL⟩)
    (hcopy : env.StartCopyFromURL st1 (s.blobURLFromBlobName (c.AssetScanID ++ ".vhd"))
      accessURL = (Except.ok (), st2)) :
    (s.ensureBlobFromSnapshot env (some c) snapshot st).result
        = Result.ret (s.blobURLFromBlobName (c.AssetScanID ++ ".vhd"),
            some (Error.Retryable estimatedBlobCopyTime "blob copy from url started"))
      ∧ (s.ensureBlobFromSnapshot env (some c) snapshot st).remote = st2
      ∧ (s.ensureBlobFromSnapshot env (some c) snapshot st).calls
        = [Call.GetProperties (s.blobURLFromBlobName (c.AssetScanID ++ ".vhd")),
            Call.BeginGrantAccess s.ScannerResourceGroup name ⟨AccessLevelRead, 3600⟩,
            Call.PollUntilDone poller,
            Call.StartCopyFromURL (s.blobURLFromBlobName (c.AssetScanID ++ ".vhd"))
              accessURL]
      ∧ ∀ (handle : AzureError → String → Bool × Option Error) (fs : FakeRemote),
          fs.blobs (s.blobURLFromBlobName (c.AssetScanID ++ ".vhd")) = none →
          (∀ action, (handle fakeNotFound action).1 = true) →
          ∃ copyID, (fakeEnv handle).GetProperties
              (s.ensureBlobFromSnapshot (fakeEnv handle) (some c) snapshot fs).remote
              (s.blobURLFromBlobName (c.AssetScanID ++ ".vhd"))
            = Except.ok ⟨some CopyStatusTypePending, some copyID⟩ := by
  rcases hh : env.HandleAzureRequestError err0
    ("getting blob " ++ (c.AssetScanID ++ ".vhd")) with ⟨b, e⟩
  rw [hh] at hnotFound
  simp only at hnotFound
  subst hnotFound
  refine ⟨?_, ?_, ?_, ?_⟩
  · simp [Scanner.ensureBlobFromSnapshot, blobNameFromJobConfig, hclient, hget, hh, hname,
      int32_snapshotSASAccessSeconds, hgrant, hpoll, hcopy, RetryableErrorf]
  · simp [Scanner.ensureBlobFromSnapshot, blobNameFromJobConfig, hclient, hget, hh, hname,
      int32_snapshotSASAccessSeconds, hgrant, hpoll, hcopy]
  · simp [Scanner.ensureBlobFromSnapshot, blobNameFromJobConfig, hclient, hget, hh, hname,
      int32_snapshotSASAccessSeconds, hgrant, hpoll, hcopy]
  · intro handle fs habsent hflag
    rcases hf : handle fakeNotFound ("getting blob " ++ (c.AssetScanID ++ ".vhd"))
      with ⟨b2, e2⟩
    have hb2 := hflag ("getting blob " ++ (c.AssetScanID ++ ".vhd"))
    rw [hf] at hb2
    simp only at hb2
    subst hb2
    refine ⟨"copy:" ++ ("https://sas.invalid/" ++ ("grant:" ++ name)), ?_⟩
    simp [Scanner.ensureBlobFromSnapshot, blobNameFromJobConfig, fakeEnv, habsent, hf,
      hname, FakeRemote.setBlob]

/-- C1, at the reference backend without any blob: the hypotheses hold and the call
answers Retryable after two minutes. -/
theorem ensureBlobFromSnapshot_blob_absent_witness :
    (exampleScanner.ensureBlobFromSnapshot (fakeEnv HandleAzureRequestError)
        (some exampleConfig) exampleSnapshot FakeRemote.empty).result
      = Result.ret (exampleBlobURL,
          some (Error.Retryable 120000000000 "blob copy from url started")) :=
  (ensureBlobFromSnapshot_blob_absent (fakeEnv HandleAzureRequestError) exampleScanner
    exampleConfig exampleSnapshot FakeRemote.empty
    ⟨FakeRemote.empty.blobs, [("rg", "snap1")]⟩
    (FakeRemote.setBlob ⟨FakeRemote.empty.blobs, [("rg", "snap1")]⟩ exampleBlobURL
      (some ⟨some CopyStatusTypePending, some "copy:https://sas.invalid/grant:snap1"⟩))
    fakeNotFound "snap1" "https://sas.invalid/grant:snap1" ⟨"grant:snap1"⟩
    rfl rfl rfl rfl rfl rfl rfl).1

/-- C2. Blob mid-copy: when the blob exists and its copy status is anything but
success, `ensureBlobFromSnapshot` returns the blob URL with a Retryable error of delay
`estimatedBlobCopyTime`, its only remote call is the existence query, so it issues no
mutating call, and the remote state is the one it started from. -/
theorem ensureBlobFromSnapshot_blob_copying {σ : Type} (env : Env σ) (s : Scanner)
    (c : ScanJobConfig) (snapshot : Snapshot) (st : σ) (getMetadata : GetPropertiesResponse)
    (copyStatus : CopyStatusType)
    (hclient : env.NewClient (s.blobURLFromBlobName (c.AssetScanID ++ ".vhd")) = none)
    (hget : env.GetProperties st (s.blobURLFromBlobName (c.AssetScanID ++ ".vhd"))
      = Except.ok getMetadata)
    (hstatus : getMetadata.CopyStatus = some copyStatus)
    (hne : copyStatus ≠ CopyStatusTypeSuccess) :
    (s.ensureBlobFromSnapshot env (some c) snapshot st).result
        = Result.ret (s.blobURLFromBlobName (c.AssetScanID ++ ".vhd"),
            some (Error.Retryable estimatedBlobCopyTime "blob is still copying"))
      ∧ (s.ensureBlobFromSnapshot env (some c) snapshot st).remote = st
      ∧ (s.ensureBlobFromSnapshot env (some c) snapshot st).calls
        = [Call.GetProperties (s.blobURLFromBlobName (c.AssetScanID ++ ".vhd"))]
      ∧ mutatingCalls (s.ensureBlobFromSnapshot env (some c) snapshot st).calls = [] := by
  simp [Scanner.ensureBlobFromSnapshot, blobNameFromJobConfig, hclient, hget, hstatus, hne,
    RetryableErrorf, mutatingCalls, Call.mutating]

/-- C2, at the reference backend holding the blob with copy status pending. -/
theorem ensureBlobFromSnapshot_blob_copying_witness :
    mutatingCalls (exampleScanner.ensureBlobFromSnapshot (fakeEnv HandleAzureRequestError)
        (some exampleConfig) exampleSnapshot
        (FakeRemote.empty.setBlob exampleBlobURL
          (some ⟨some CopyStatusTypePending, some "copy1"⟩))).calls = [] :=
  (ensureBlobFromSnapshot_blob_copying (fakeEnv HandleAzureRequestError) exampleScanner
    exampleConfig exampleSnapshot
    (FakeRemote.empty.setBlob exampleBlobURL
      (some ⟨some CopyStatusTypePending, some "copy1"⟩))
    ⟨some CopyStatusTypePending, some "copy1"⟩ CopyStatusTypePending
    rfl rfl rfl (by decide)).2.2.2

/-- C3. Copy succeeded: when the blob exists with copy status success and
revoke-access on the snapshot (the call and its poll) succeeds,
`ensureBlobFromSnapshot` returns the blob URL with no error, and its remote calls are
the existence query, one revoke-access on the snapshot and the poll of that revoke:
the single mutating call is the revoke, and there is no grant-access or start-copy. -/
theorem ensureBlobFromSnapshot_copy_succeeded {σ : Type} (env : Env σ) (s : Scanner)
    (c : ScanJobConfig) (snapshot : Snapshot) (st st1 : σ)
    (getMetadata : GetPropertiesResponse) (name : String) (revokepoller : Poller)
    (hclient : env.NewClient (s.blobURLFromBlobName (c.AssetScanID ++ ".vhd")) = none)
    (hget : env.GetProperties st (s.blobURLFromBlobName (c.AssetScanID ++ ".vhd"))
      = Except.ok getMetadata)
    (hstatus : getMetadata.CopyStatus = some CopyStatusTypeSuccess)
    (hname : snapshot.Name = some name)
    (hrevoke : env.BeginRevokeAccess st s.ScannerResourceGroup name
      = (Except.ok revokepoller, st1))
    (hpoll : env.RevokePollUntilDone st1 revokepoller = Except.ok ()) :
    (s.ensureBlobFromSnapshot env (some c) snapshot st).result
        = Result.ret (s.blobURLFromBlobName (c.AssetScanID ++ ".vhd"), none)
      ∧ (s.ensureBlobFromSnapshot env (some c) snapshot st).remote = st1
      ∧ (s.ensureBlobFromSnapshot env (some c) snapshot st).calls
        = [Call.GetProperties (s.blobURLFromBlobName (c.AssetScanID ++ ".vhd")),
            Call.BeginRevokeAccess s.ScannerResourceGroup name,
            Call.PollUntilDone revokepoller]
      ∧ mutatingCalls (s.ensureBlobFromSnapshot env (some c) snapshot st).calls
        = [Call.BeginRevokeAccess s.ScannerResourceGroup name] := by
  simp [Scanner.ensureBlobFromSnapshot, blobNameFromJobConfig, hclient, hget, hstatus, hname,
    hrevoke, hpoll, mutatingCalls, Call.mutating]

/-- C3, at the reference backend holding the blob with copy status success. -/
theorem ensureBlobFromSnapshot_copy_succeeded_witness :
    (exampleScanner.ensureBlobFromSnapshot (fakeEnv HandleAzureRequestError)
        (some exampleConfig) exampleSnapshot
        (FakeRemote.setBlob ⟨FakeRemote.empty.blobs, [("rg", "snap1")]⟩ exampleBlobURL
          (some ⟨some CopyStatusTypeSuccess, some "copy1"⟩))).result
      = Result.ret (exampleBlobURL, none) :=
  (ensureBlobFromSnapshot_copy_succeeded (fakeEnv HandleAzureRequestError) exampleScanner
    exampleConfig exampleSnapshot
    (FakeRemote.setBlob ⟨FakeRemote.empty.blobs, [("rg", "snap1")]⟩ exampleBlobURL
      (some ⟨some CopyStatusTypeSuccess, some "copy1"⟩))
    (FakeRemote.setBlob ⟨FakeRemote.empty.blobs, []⟩ exampleBlobURL
      (some ⟨some CopyStatusTypeSuccess, some "copy1"⟩))
    ⟨some CopyStatusTypeSuccess, some "copy1"⟩ "snap1" ⟨"revoke:snap1"⟩
    rfl rfl rfl rfl rfl rfl).1

/-- C4. Teardown, blob absent: when the client is built and `GetProperties` fails with
an error that `HandleAzureRequestError` flags as not found, `ensureBlobDeleted`
returns no error, leaves the remote state as it was, and its only remote call is the
existence query. -/
theorem ensureBlobDeleted_blob_absent {σ : Type} (env : Env σ) (s : Scanner)
    (c : ScanJobConfig) (st : σ) (err0 : AzureError)
    (hclient : env.NewClient (s.blobURLFromBlobName (c.AssetScanID ++ ".vhd")) = none)
    (hget : env.GetProperties st (s.blobURLFromBlobName (c.AssetScanID ++ ".vhd"))
      = Except.error err0)
    (hnotFound : (env.HandleAzureRequestError err0
      ("getting blob " ++ (c.AssetScanID ++ ".vhd"))).1 = true) :
    (s.ensureBlobDeleted env (some c) st).result = Result.ret none
      ∧ (s.ensureBlobDeleted env (some c) st).remote = st
      ∧ (s.ensureBlobDeleted env (some c) st).calls
        = [Call.GetProperties (s.blobURLFromBlobName (c.AssetScanID ++ ".vhd"))] := by
  rcases hh : env.HandleAzureRequestError err0
    ("getting blob " ++ (c.AssetScanID ++ ".vhd")) with ⟨b, e⟩
  rw [hh] at hnotFound
  simp only at hnotFound
  subst hnotFound
  simp [Scanner.ensureBlobDeleted, blobNameFromJobConfig, hclient, hget, hh]

/-- C4, at the reference backend without any blob. -/
theorem ensureBlobDeleted_blob_absent_witness :
    (exampleScanner.ensureBlobDeleted (fakeEnv HandleAzureRequestError)
        (some exampleConfig) FakeRemote.empty).calls
      = [Call.GetProperties exampleBlobURL] :=
  (ensureBlobDeleted_blob_absent (fakeEnv HandleAzureRequestError) exampleScanner
    exampleConfig FakeRemote.empty fakeNotFound rfl rfl rfl).2.2

/-- C5. Teardown, blob mid-copy: when the blob exists with copy status pending and a
copy id, and the abort call succeeds, `ensureBlobDeleted` issues the existence query
and exactly one abort-copy carrying that copy id, no delete, and returns a Retryable
error of delay `estimatedBlobAbortTime`. -/
theorem ensureBlobDeleted_blob_copying {σ : Type} (env : Env σ) (s : Scanner)
    (c : ScanJobConfig) (st st1 : σ) (getMetadata : GetPropertiesResponse)
    (copyID : String)
    (hclient : env.NewClient (s.blobURLFromBlobName (c.AssetScanID ++ ".vhd")) = none)
    (hget : env.GetProperties st (s.blobURLFromBlobName (c.AssetScanID ++ ".vhd"))
      = Except.ok getMetadata)
    (hstatus : getMetadata.CopyStatus = some CopyStatusTypePending)
    (hid : getMetadata.CopyID = some copyID)
    (habort : env.AbortCopyFromURL st (s.blobURLFromBlobName (c.AssetScanID ++ ".vhd"))
      copyID = (Except.ok (), st1)) :
    (s.ensureBlobDeleted env (some c) st).result
        = Result.ret (some (Error.Retryable estimatedBlobAbortTime "blob copy aborting"))
      ∧ (s.ensureBlobDeleted env (some c) st).remote = st1
      ∧ (s.ensureBlobDeleted env (some c) st).calls
        = [Call.GetProperties (s.blobURLFromBlobName (c.AssetScanID ++ ".vhd")),
            Call.AbortCopyFromURL (s.blobURLFromBlobName (c.AssetScanID ++ ".vhd"))
              copyID] := by
  simp [Scanner.ensureBlobDeleted, blobNameFromJobConfig, hclient, hget, hstatus, hid,
    habort, RetryableErrorf]

/-- C5, at the reference backend holding the blob with copy status pending. -/
theorem ensureBlobDeleted_blob_copying_witness :
    (exampleScanner.ensureBlobDeleted (fakeEnv HandleAzureRequestError)
        (some exampleConfig)
        (FakeRemote.empty.setBlob exampleBlobURL
          (some ⟨some CopyStatusTypePending, some "copy1"⟩))).calls
      = [Call.GetProperties exampleBlobURL, Call.AbortCopyFromURL exampleBlobURL "copy1"] :=
  (ensureBlobDeleted_blob_copying (fakeEnv HandleAzureRequestError) exampleScanner
    exampleConfig
    (FakeRemote.empty.setBlob exampleBlobURL
      (some ⟨some CopyStatusTypePending, some "copy1"⟩))
    (FakeRemote.setBlob (FakeRemote.empty.setBlob exampleBlobURL
        (some ⟨some CopyStatusTypePending, some "copy1"⟩)) exampleBlobURL
      (some ⟨some CopyStatusTypeAborted, some "copy1"⟩))
    ⟨some CopyStatusTypePending, some "copy1"⟩ "copy1"
    rfl rfl rfl rfl rfl).2.2

/-- C6. Teardown, blob present: when the blob exists with a copy status other than
pending and the delete call succeeds, `ensureBlobDeleted` issues the existence query
and exactly one delete, no abort, and returns a Retryable error of delay
`estimatedBlobDeleteTime`.  Over the reference backend, where delete removes the blob,
the next call with the same configuration returns no error. -/
theorem ensureBlobDeleted_blob_present {σ : Type} (env : Env σ) (s : Scanner)
    (c : ScanJobConfig) (st st1 : σ) (getMetadata : GetPropertiesResponse)
    (copyStatus : CopyStatusType)
    (hclient : env.NewClient (s.blobURLFromBlobName (c.AssetScanID ++ ".vhd")) = none)
    (hget : env.GetProperties st (s.blobURLFromBlobName (c.AssetScanID ++ ".vhd"))
      = Except.ok getMetadata)
    (hstatus : getMetadata.CopyStatus = some copyStatus)
    (hne : copyStatus ≠ CopyStatusTypePending)
    (hdelete : env.Delete st (s.blobURLFromBlobName (c.AssetScanID ++ ".vhd"))
      = (Except.ok (), st1)) :
    (s.ensureBlobDeleted env (some c) st).result
        = Result.ret (some (Error.Retryable estimatedBlobDeleteTime
            ("blob " ++ (c.AssetScanID ++ ".vhd") ++ " delete started")))
      ∧ (s.ensureBlobDeleted env (some c) st).remote = st1
      ∧ (s.ensureBlobDeleted env (some c) st).calls
        = [Call.GetProperties (s.blobURLFromBlobName (c.AssetScanID ++ ".vhd")),
            Call.Delete (s.blobURLFromBlobName (c.AssetScanID ++ ".vhd"))]
      ∧ ∀ (handle : AzureError → String → Bool × Option Error) (fs : FakeRemote)
          (b : FakeBlob) (status : CopyStatusType),
          fs.blobs (s.blobURLFromBlobName (c.AssetScanID ++ ".vhd")) = some b →
          b.CopyStatus = some status → status ≠ CopyStatusTypePending →
          (∀ action, (handle fakeNotFound action).1 = true) →
          (s.ensureBlobDeleted (fakeEnv handle) (some c) fs).result
              = Result.ret (some (Error.Retryable estimatedBlobDeleteTime
                  ("blob " ++ (c.AssetScanID ++ ".vhd") ++ " delete started")))
            ∧ (s.ensureBlobDeleted (fakeEnv handle) (some c)
                (s.ensureBlobDeleted (fakeEnv handle) (some c) fs).remote).result
              = Result.ret none := by
  refine ⟨?_, ?_, ?_, ?_⟩
  · simp [Scanner.ensureBlobDeleted, blobNameFromJobConfig, hclient, hget, hstatus, hne,
      hdelete, RetryableErrorf]
  · simp [Scanner.ensureBlobDeleted, blobNameFromJobConfig, hclient, hget, hstatus, hne,
      hdelete]
  · simp [Scanner.ensureBlobDeleted, blobNameFromJobConfig, hclient, hget, hstatus, hne,
      hdelete]
  · intro handle fs b status hb hbs hbne hflag
    rcases hf : handle fakeNotFound ("getting blob " ++ (c.AssetScanID ++ ".vhd"))
      with ⟨b2, e2⟩
    have hb2 := hflag ("getting blob " ++ (c.AssetScanID ++ ".vhd"))
    rw [hf] at hb2
    simp only at hb2
    subst hb2
    simp [Scanner.ensureBlobDeleted, blobNameFromJobConfig, fakeEnv, hb, hbs, hbne, hf,
      FakeRemote.setBlob, RetryableErrorf]

/-- C6, at the reference backend holding the blob with copy status success. -/
theorem ensureBlobDeleted_blob_present_witness :
    (exampleScanner.ensureBlobDeleted (fakeEnv HandleAzureRequestError)
        (some exampleConfig)
        (FakeRemote.empty.setBlob exampleBlobURL
          (some ⟨some CopyStatusTypeSuccess, some "copy1"⟩))).calls
      = [Call.GetProperties exampleBlobURL, Call.Delete exampleBlobURL] :=
  (ensureBlobDeleted_blob_present (fakeEnv HandleAzureRequestError) exampleScanner
    exampleConfig
    (FakeRemote.empty.setBlob exampleBlobURL
      (some ⟨some CopyStatusTypeSuccess, some "copy1"⟩))
    (FakeRemote.setBlob (FakeRemote.empty.setBlob exampleBlobURL
        (some ⟨some CopyStatusTypeSuccess, some "copy1"⟩)) exampleBlobURL none)
    ⟨some CopyStatusTypeSuccess, some "copy1"⟩ CopyStatusTypeSuccess
    rfl rfl rfl (by decide) rfl).2.2.1

/-- C7 as stated fails: at the reference backend without any blob, one invocation of
`ensureBlobFromSnapshot` issues two mutating calls, grant-access and start-copy. -/
theorem ensureBlobFromSnapshot_two_mutating_calls :
    ¬ (mutatingCalls (exampleScanner.ensureBlobFromSnapshot
          (fakeEnv HandleAzureRequestError) (some exampleConfig) exampleSnapshot
          FakeRemote.empty).calls).length ≤ 1 := by
  decide

/-- C7, amended. One invocation of `ensureBlobDeleted` issues at most one mutating
call.  One invocation of `ensureBlobFromSnapshot` issues at most one mutating call,
except on the blob-absent path, where it issues exactly two: a read grant-access of
3600 seconds on the snapshot followed by the start-copy on the blob. -/
theorem mutating_calls_per_invocation {σ : Type} (env : Env σ) (s : Scanner)
    (config : Option ScanJobConfig) (snapshot : Snapshot) (st : σ) :
    (mutatingCalls (s.ensureBlobDeleted env config st).calls).length ≤ 1
      ∧ ((mutatingCalls (s.ensureBlobFromSnapshot env config snapshot st).calls).length ≤ 1
        ∨ ∃ name blobURL accessURL,
            mutatingCalls (s.ensureBlobFromSnapshot env config snapshot st).calls
              = [Call.BeginGrantAccess s.ScannerResourceGroup name ⟨AccessLevelRead, 3600⟩,
                  Call.StartCopyFromURL blobURL accessURL]) := by
  constructor
  · unfold Scanner.ensureBlobDeleted
    split
    · simp [mutatingCalls]
    · dsimp only
      repeat' split
      all_goals simp [mutatingCalls, Call.mutating]
  · unfold Scanner.ensureBlobFromSnapshot
    split
    · simp [mutatingCalls]
    · dsimp only
      repeat' split
      all_goals simp [mutatingCalls, Call.mutating, int32_snapshotSASAccessSeconds]

/-- C8. On the delete path `ensureBlobDeleted` returns the error of
`HandleAzureRequestError` as it is, without consulting the `notFound` flag of that call:
when the existence query finds the blob with a copy status other than pending and the
delete call fails, the result is whatever error the handler produced for that
failure, also when the handler flags it as not found. -/
theorem ensureBlobDeleted_delete_error {σ : Type} (env : Env σ) (s : Scanner)
    (c : ScanJobConfig) (st st1 : σ) (getMetadata : GetPropertiesResponse)
    (copyStatus : CopyStatusType) (err : AzureError)
    (hclient : env.NewClient (s.blobURLFromBlobName (c.AssetScanID ++ ".vhd")) = none)
    (hget : env.GetProperties st (s.blobURLFromBlobName (c.AssetScanID ++ ".vhd"))
      = Except.ok getMetadata)
    (hstatus : getMetadata.CopyStatus = some copyStatus)
    (hne : copyStatus ≠ CopyStatusTypePending)
    (hdelete : env.Delete st (s.blobURLFromBlobName (c.AssetScanID ++ ".vhd"))
      = (Except.error err, st1)) :
    (s.ensureBlobDeleted env (some c) st).result
      = Result.ret (env.HandleAzureRequestError err
          ("deleting blob " ++ (c.AssetScanID ++ ".vhd"))).2 := by
  simp [Scanner.ensureBlobDeleted, blobNameFromJobConfig, hclient, hget, hstatus, hne,
    hdelete]

/-- C8, the code at the failing input: the existence query finds the blob with copy
status success, the delete call answers 404, `HandleAzureRequestError` raises the
`notFound` flag for that answer, and `ensureBlobDeleted` returns a Fatal error. -/
theorem ensureBlobDeleted_delete_race_fatal :
    (HandleAzureRequestError fakeNotFound "deleting blob assetscanid1.vhd").1 = true
      ∧ (exampleScanner.ensureBlobDeleted (deleteRaceEnv HandleAzureRequestError)
          (some exampleConfig)
          (FakeRemote.empty.setBlob exampleBlobURL
            (some ⟨some CopyStatusTypeSuccess, some "copy1"⟩))).result
        = Result.ret (some (Error.Fatal
            "error from azure while deleting blob assetscanid1.vhd: BlobNotFound")) :=
  ⟨rfl, ensureBlobDeleted_delete_error (deleteRaceEnv HandleAzureRequestError)
    exampleScanner exampleConfig
    (FakeRemote.empty.setBlob exampleBlobURL
      (some ⟨some CopyStatusTypeSuccess, some "copy1"⟩))
    (FakeRemote.setBlob (FakeRemote.empty.setBlob exampleBlobURL
        (some ⟨some CopyStatusTypeSuccess, some "copy1"⟩)) exampleBlobURL none)
    ⟨some CopyStatusTypeSuccess, some "copy1"⟩ CopyStatusTypeSuccess fakeNotFound
    rfl rfl rfl (by decide) rfl⟩

/-! ## Theorems: asset conversion -/

theorem AsTime_timestamppbNew (t : types.Time) : AsTime (timestamppbNew t) = t := by
  obtain ⟨sec, ⟨n, hn⟩⟩ := t
  simp only [AsTime, timestamppbNew, types.Time.mk.injEq, Fin.mk.injEq]
  constructor <;> omega

theorem convertTags_round_trip (tags : Option (List types.Tag)) (h : tags ≠ some []) :
    convertTagsToModels (convertTagsFromModels tags) = tags := by
  match tags, h with
  | none, _ => rfl
  | some [], h => exact absurd rfl h
  | some (t :: ts), _ =>
    simp [convertTagsFromModels, convertTagsToModels, List.map_map, Function.comp_def]

/-- C9 as stated fails: each of these four assets has exactly one populated variant and
is converted to the wire without error, and converting the wire asset back does not
return it: an empty tag sequence comes back absent, the provider AWS comes back
External, a security group is lost, and an absent directory name comes back as the
empty string. -/
theorem convertAsset_round_trip_fails :
    (¬ ∃ w, convertAssetFromModels emptyTagsVM = (some w, none)
        ∧ convertAssetToModels (some w) = (emptyTagsVM, none))
      ∧ (¬ ∃ w, convertAssetFromModels awsVM = (some w, none)
        ∧ convertAssetToModels (some w) = (awsVM, none))
      ∧ (¬ ∃ w, convertAssetFromModels securityGroupVM = (some w, none)
        ∧ convertAssetToModels (some w) = (securityGroupVM, none))
      ∧ (¬ ∃ w, convertAssetFromModels namelessDir = (some w, none)
        ∧ convertAssetToModels (some w) = (namelessDir, none)) := by
  refine ⟨?_, ?_, ?_, ?_⟩
  all_goals
    rintro ⟨w, h1, h2⟩
    have hw := congrArg Prod.fst h1
    cases Option.some.inj hw
    revert h2
    decide

/-- C9, amended. For every canonical asset whose populated variant is a virtual machine
with `InstanceProvider` `External`, `SecurityGroups` present and empty and a tag
sequence that is absent or non-empty, or a directory or a pod whose two scalars are
both present, `convertAssetFromModels` succeeds with a wire asset and
`convertAssetToModels` of that wire asset succeeds and returns the asset itself. -/
theorem convertAsset_round_trip (a : types.Asset)
    (h : (∃ info, a.AssetInfo = some (types.AssetType.ofVMInfo info)
          ∧ info.InstanceProvider = some types.CloudProvider.External
          ∧ info.SecurityGroups = some [] ∧ info.Tags ≠ some [])
        ∨ (∃ info, a.AssetInfo = some (types.AssetType.ofDirInfo info)
          ∧ info.DirName ≠ none ∧ info.Location ≠ none)
        ∨ (∃ info, a.AssetInfo = some (types.AssetType.ofPodInfo info)
          ∧ info.PodName ≠ none ∧ info.Location ≠ none)) :
    ∃ w, convertAssetFromModels a = (some w, none)
      ∧ convertAssetToModels (some w) = (a, none) := by
  obtain ⟨ai⟩ := a
  rcases h with ⟨info, hi, hp, hsg, htags⟩ | ⟨info, hi, hn, hl⟩ | ⟨info, hi, hn, hl⟩
  · simp only at hi
    subst hi
    obtain ⟨img, iid, prov, ity, lt, loc, plat, sgs, tags⟩ := info
    simp only at hp hsg htags
    subst hp hsg
    refine ⟨_, rfl, ?_⟩
    simp [convertAssetToModels, AsTime_timestamppbNew, convertTags_round_trip tags htags]
  · simp only at hi
    subst hi
    obtain ⟨dn, loc⟩ := info
    cases dn <;> cases loc <;> simp_all [convertAssetFromModels, convertAssetToModels]
  · simp only at hi
    subst hi
    obtain ⟨pn, loc⟩ := info
    cases pn <;> cases loc <;> simp_all [convertAssetFromModels, convertAssetToModels]

/-- C9, amended, at the virtual machine of helpers_test.go. -/
theorem convertAsset_round_trip_witness :
    ∃ w, convertAssetFromModels ⟨some (types.AssetType.ofVMInfo (testVMInfo testTime))⟩
        = (some w, none)
      ∧ convertAssetToModels (some w)
        = (⟨some (types.AssetType.ofVMInfo (testVMInfo testTime))⟩, none) :=
  convertAsset_round_trip ⟨some (types.AssetType.ofVMInfo (testVMInfo testTime))⟩
    (Or.inl ⟨testVMInfo testTime, rfl, rfl, rfl, by decide⟩)

/-- C10. `convertAssetToModels` fails with `InvalidInput` and the empty asset for a nil
wire asset, fails with `UnsupportedAssetType` and the empty asset for a wire asset whose
arm is unset or unrecognized, and returns no error and a populated variant for a wire
asset whose arm is Vminfo, Dirinfo or Podinfo. -/
theorem convertAssetToModels_union_exclusivity (w : provider_service.Asset) :
    convertAssetToModels none
        = (⟨none⟩, some (ConversionError.InvalidInput "asset is nil"))
      ∧ ((w.AssetType = none
            ∨ ∃ tag, w.AssetType = some (provider_service.AssetType.unrecognized tag)) →
          convertAssetToModels (some w)
            = (⟨none⟩, some (ConversionError.UnsupportedAssetType "unsupported asset type")))
      ∧ (((∃ v, w.AssetType = some (provider_service.AssetType.Vminfo v))
            ∨ (∃ d, w.AssetType = some (provider_service.AssetType.Dirinfo d))
            ∨ (∃ p, w.AssetType = some (provider_service.AssetType.Podinfo p))) →
          (convertAssetToModels (some w)).2 = none
            ∧ (convertAssetToModels (some w)).1.AssetInfo ≠ none) := by
  obtain ⟨arm⟩ := w
  refine ⟨rfl, ?_, ?_⟩
  · rintro (h | ⟨tag, h⟩) <;> simp only at h <;> subst h <;> rfl
  · rintro (⟨v, h⟩ | ⟨d, h⟩ | ⟨p, h⟩) <;> simp only at h <;> subst h <;>
      simp [convertAssetToModels]

/-- C10, at the nil asset, the asset without an arm and the pod of helpers_test.go. -/
theorem convertAssetToModels_union_exclusivity_witness :
    convertAssetToModels (some ⟨none⟩)
        = (⟨none⟩, some (ConversionError.UnsupportedAssetType "unsupported asset type"))
      ∧ (convertAssetToModels (some ⟨some (provider_service.AssetType.Podinfo
          ⟨"pod1", "podLocation1"⟩)⟩)).2 = none :=
  ⟨(convertAssetToModels_union_exclusivity ⟨none⟩).2.1 (Or.inl rfl),
    ((convertAssetToModels_union_exclusivity ⟨some (provider_service.AssetType.Podinfo
      ⟨"pod1", "podLocation1"⟩)⟩).2.2 (Or.inr (Or.inr ⟨_, rfl⟩))).1⟩

end VMClarity
